import Mathlib

/-!
Verification of the pronunciation-comparison core of the Sanskrit voice-bot
repository (src/utils/text_processor.py, src/analysis/pronunciation_analyzer.py,
src/tracking/word_practice_tracker.py, src/core/config.py).

Modelling conventions:
* Python floats are modelled as exact rationals.  All numeric values that the
  code manipulates (similarity ratios, accuracy percentages, thresholds) are
  small-denominator rationals, far away from any binary-float rounding
  boundary relevant to the comparisons performed.
* Python's round(x, 1) (banker's rounding to one decimal) is modelled by
  pyRound1 below, as exact rational half-to-even rounding.
* difflib.SequenceMatcher(None, a, b).ratio() is modelled by ratioOf: the
  Ratcliff/Obershelp matching-block total 2*M/T, where the longest matching
  block is chosen with difflib's documented tie-break (earliest start in the
  first string, then earliest start in the second).  The autojunk popularity
  heuristic only activates when the second string has at least 200 characters
  and, for identical inputs, is cancelled by difflib's boundary-extension
  phase; it is not modelled.
* Python str.lower() is modelled by Char.toLower (faithful on the ASCII and
  Devanagari inputs in scope; Devanagari has no case), str.strip() by
  pyStrip, and the whitespace class of re and str.split() by
  Char.isWhitespace.
-/

set_option maxRecDepth 200000

/-- Python round(q, 1): round half to even at one decimal place. -/
def pyRound1 (q : ℚ) : ℚ :=
  let x := q * 10
  let f : ℤ := ⌊x⌋
  let r : ℚ := x - f
  let n : ℤ :=
    if r < 1/2 then f
    else if (1:ℚ)/2 < r then f + 1
    else if f % 2 = 0 then f else f + 1
  (n : ℚ) / 10

/-- Python sum() over a list of numbers (left fold from 0). -/
def listSum (l : List ℚ) : ℚ := l.foldl (· + ·) 0

/-- Python str.strip(): drop leading and trailing whitespace. -/
def pyStrip (s : String) : String :=
  String.mk (((s.toList.dropWhile Char.isWhitespace).reverse.dropWhile
    Char.isWhitespace).reverse)

/-- Length of the longest common prefix of two character lists. -/
def commonPrefixLen : List Char → List Char → Nat
  | a :: as, b :: bs => if a = b then commonPrefixLen as bs + 1 else 0
  | _, _ => 0

/-- All candidate blocks (i, j, run length of the match starting at a[i], b[j])
considered by difflib's find_longest_match, in its scan order. -/
def candList (a b : List Char) : List (Nat × Nat × Nat) :=
  (List.range a.length).flatMap fun i =>
    (List.range b.length).map fun j => (i, j, commonPrefixLen (a.drop i) (b.drop j))

/-- Keep the candidate with the strictly larger run; ties keep the earlier one. -/
def pickStep (best c : Nat × Nat × Nat) : Nat × Nat × Nat :=
  if best.2.2 < c.2.2 then c else best

/-- difflib SequenceMatcher.find_longest_match (no junk): the longest matching
block, earliest in a then earliest in b on ties; (0, 0, 0) when no match. -/
def find_longest_match (a b : List Char) : Nat × Nat × Nat :=
  (candList a b).foldl pickStep (0, 0, 0)

/-- Total size of matching blocks (difflib get_matching_blocks recursion):
find the longest match, recurse on the pieces to its left and right.  The
fuel argument only serves structural termination; the length of the first
list strictly decreases at every recursive call, so fuel = a.length always
suffices. -/
def matchTotalAux : Nat → List Char → List Char → Nat
  | 0, _, _ => 0
  | fuel + 1, a, b =>
    match find_longest_match a b with
    | (i, j, k) =>
      if 0 < k then
        matchTotalAux fuel (a.take i) (b.take j) + k +
          matchTotalAux fuel (a.drop (i + k)) (b.drop (j + k))
      else 0

/-- Total length M of all matching blocks between a and b. -/
def matchTotal (a b : List Char) : Nat := matchTotalAux a.length a b

/-- difflib SequenceMatcher.ratio(): 2 * M / T. -/
def ratioOf (a b : List Char) : ℚ :=
  2 * (matchTotal a b : ℚ) / ((a.length : ℚ) + (b.length : ℚ))

namespace AnalysisConfig

/-- src/core/config.py: AnalysisConfig.WORD_SIMILARITY_THRESHOLD = 0.7. -/
def WORD_SIMILARITY_THRESHOLD : ℚ := 7/10

/-- src/core/config.py: AnalysisConfig.PASSING_ACCURACY = 70.0. -/
def PASSING_ACCURACY : ℚ := 70

end AnalysisConfig

namespace PracticeConfig

/-- src/core/config.py: PracticeConfig.MAX_ATTEMPTS_BEFORE_SUGGESTION = 5. -/
def MAX_ATTEMPTS_BEFORE_SUGGESTION : Nat := 5

/-- src/core/config.py: PracticeConfig.DECREASING_ACCURACY_THRESHOLD = 5. -/
def DECREASING_ACCURACY_THRESHOLD : Nat := 5

/-- src/core/config.py: PracticeConfig.MINIMUM_ATTEMPTS_FOR_SUGGESTION = 3. -/
def MINIMUM_ATTEMPTS_FOR_SUGGESTION : Nat := 3

end PracticeConfig

namespace TextProcessor

/-- TextProcessor.calculate_similarity: 0.0 if either input is empty, else
SequenceMatcher(None, text1.lower(), text2.lower()).ratio(). -/
def calculate_similarity (text1 text2 : String) : ℚ :=
  if text1 = "" ∨ text2 = "" then 0
  else ratioOf (text1.toList.map Char.toLower) (text2.toList.map Char.toLower)

/-- Characters kept by the re.sub in smart_word_split: the Devanagari block
U+0900..U+097F, whitespace, and the danda punctuation marks. -/
def keepChar (c : Char) : Bool :=
  (0x0900 ≤ c.toNat ∧ c.toNat ≤ 0x097F) || c.isWhitespace || c = '।' || c = '॥'

/-- Split a character list on whitespace (Python str.split() before its
empty-string filtering). -/
def splitWsAux : List Char → List Char → List (List Char)
  | [], cur => [cur]
  | c :: rest, cur =>
    if c.isWhitespace then cur :: splitWsAux rest []
    else splitWsAux rest (cur ++ [c])

/-- TextProcessor.smart_word_split: replace every character outside the kept
class by a space, split on whitespace, and drop empty pieces. -/
def smart_word_split (text : String) : List String :=
  if text = "" then []
  else
    let cleaned := text.toList.map fun c => if keepChar c then c else ' '
    ((splitWsAux cleaned []).map String.mk).filter fun w => w ≠ ""

/-- Per-word metadata entry ('devanagari'/'slp1' dict) fed to align_words. -/
structure WordMeta where
  devanagari : String
  slp1 : String
deriving DecidableEq

/-- One entry of the list returned by TextProcessor.align_words. -/
structure WordResult where
  index : Nat
  original : String
  user : String
  correct : Bool
  similarity : ℚ
  devanagari : String
  slp1 : String
deriving DecidableEq

/-- TextProcessor.align_words: positional alignment of the two token lists up
to the longer length, scoring positions where both tokens are non-empty and
marking the rest with similarity 0.0 and correct = false. -/
def align_words (original_words user_words : List String)
    (shloka_words_data : Option (List WordMeta)) : List WordResult :=
  (List.range (max original_words.length user_words.length)).map fun i =>
    let original_word := original_words.getD i ""
    let user_word := user_words.getD i ""
    let simCor : ℚ × Bool :=
      if original_word ≠ "" ∧ user_word ≠ "" then
        (calculate_similarity original_word user_word,
          decide (AnalysisConfig.WORD_SIMILARITY_THRESHOLD <
            calculate_similarity original_word user_word))
      else (0, false)
    let word_data : Option WordMeta := (shloka_words_data.getD [])[i]?
    { index := i
      original := original_word
      user := user_word
      correct := simCor.2
      similarity := simCor.1
      devanagari := match word_data with
        | some wd => wd.devanagari
        | none => original_word
      slp1 := match word_data with
        | some wd => wd.slp1
        | none => "" }

/-- TextProcessor.extract_incorrect_words. -/
def extract_incorrect_words (word_results : List WordResult) : List WordResult :=
  word_results.filter fun r => !r.correct && decide (r.original ≠ "")

/-- TextProcessor.calculate_accuracy. -/
def calculate_accuracy (word_results : List WordResult) : ℚ :=
  if word_results = [] then 0
  else
    let original_words := word_results.filter fun r => r.original ≠ ""
    if original_words = [] then 0
    else
      let correct_count := original_words.countP fun r => r.correct
      pyRound1 (((correct_count : ℚ) / (original_words.length : ℚ)) * 100)

end TextProcessor

namespace PronunciationAnalyzer

open TextProcessor

/-- Shloka data consumed by the analyzer ('devanagari' text plus the optional
'words' metadata list, defaulted to [] by original_shloka.get('words', [])). -/
structure Shloka where
  devanagari : String
  words : List WordMeta

/-- Result dict of PronunciationAnalyzer._analyze_full_shloka. -/
structure AnalysisResult where
  accuracy : ℚ
  correct_count : Nat
  total_count : Nat
  word_results : List WordResult
  incorrect_words : List WordResult
  passed : Bool
  user_transcription : String
  original_words : List String
  user_words : List String
  analysis_type : String

/-- Result dict of PronunciationAnalyzer._analyze_single_word (the full-shloka
fields plus word_index and total_practice_words). -/
structure SingleWordAnalysis where
  accuracy : ℚ
  correct_count : Nat
  total_count : Nat
  word_results : List WordResult
  incorrect_words : List WordResult
  passed : Bool
  user_transcription : String
  original_words : List String
  user_words : List String
  analysis_type : String
  word_index : Nat
  total_practice_words : Nat

/-- PronunciationAnalyzer._analyze_full_shloka. -/
def analyze_full_shloka (user_transcription : String) (original_shloka : Shloka) :
    AnalysisResult :=
  let original_words := smart_word_split original_shloka.devanagari
  let user_words := smart_word_split user_transcription
  let word_results := align_words original_words user_words (some original_shloka.words)
  let accuracy := calculate_accuracy word_results
  let correct_count := word_results.countP fun r => r.correct && decide (r.original ≠ "")
  let total_count := (word_results.filter fun r => r.original ≠ "").length
  let incorrect_words := extract_incorrect_words word_results
  { accuracy := accuracy
    correct_count := correct_count
    total_count := total_count
    word_results := word_results
    incorrect_words := incorrect_words
    passed := decide (AnalysisConfig.PASSING_ACCURACY ≤ accuracy)
    user_transcription := user_transcription
    original_words := original_words
    user_words := user_words
    analysis_type := "full_shloka" }

/-- PronunciationAnalyzer._analyze_single_word.  Returns none exactly when the
practice-word list is empty or the index is out of range. -/
def analyze_single_word (user_transcription : String) (practice_words : List WordMeta)
    (current_word_index : Nat) : Option SingleWordAnalysis :=
  match practice_words[current_word_index]? with
  | none => none
  | some current_word =>
    let original_word := current_word.devanagari
    let user_word := pyStrip user_transcription
    let similarity := calculate_similarity original_word user_word
    let is_correct : Bool :=
      decide (AnalysisConfig.WORD_SIMILARITY_THRESHOLD < similarity)
    let word_result : WordResult :=
      { index := 0
        original := original_word
        user := user_word
        correct := is_correct
        similarity := similarity
        devanagari := current_word.devanagari
        slp1 := current_word.slp1 }
    let accuracy := similarity * 100
    some
      { accuracy := pyRound1 accuracy
        correct_count := if is_correct then 1 else 0
        total_count := 1
        word_results := [word_result]
        incorrect_words := if is_correct then [] else [word_result]
        passed := is_correct
        user_transcription := user_transcription
        original_words := [original_word]
        user_words := [user_word]
        analysis_type := "single_word"
        word_index := current_word_index
        total_practice_words := practice_words.length }

end PronunciationAnalyzer

namespace WordPracticeTracker

/-- Per-key entry of WordPracticeTracker.word_attempts.  The Python dict also
stores a timestamp per attempt; only the number of recorded attempts is ever
read, so the attempts field holds that count. -/
structure WordData where
  attempts : Nat
  accuracies : List ℚ
  last_accuracy : ℚ
  decreasing_streak : Nat
  best_accuracy : ℚ
  transcriptions : List String

/-- The fresh entry created when a word key is first seen. -/
def initWordData : WordData :=
  { attempts := 0
    accuracies := []
    last_accuracy := 0
    decreasing_streak := 0
    best_accuracy := 0
    transcriptions := [] }

/-- WordPracticeTracker.record_word_attempt, as the per-key state update: the
input is the current entry for the key (none when the key is unseen) and the
output is the updated entry. -/
def record_word_attempt (cur : Option WordData) (accuracy : ℚ)
    (user_transcription : String) : WordData :=
  let word_data := cur.getD initWordData
  { attempts := word_data.attempts + 1
    accuracies := word_data.accuracies ++ [accuracy]
    last_accuracy := accuracy
    decreasing_streak :=
      if accuracy < word_data.last_accuracy then word_data.decreasing_streak + 1 else 0
    best_accuracy := max word_data.best_accuracy accuracy
    transcriptions := word_data.transcriptions ++ [user_transcription] }

/-- Fold a sequence of (accuracy, transcription) attempts for one key into its
tracker entry, starting from an unseen key. -/
def applyAttempts (l : List (ℚ × String)) : Option WordData :=
  l.foldl (fun cur p => some (record_word_attempt cur p.1 p.2)) none

/-- Record a list of accuracies for one key (empty transcriptions). -/
def recordAccuracies (l : List ℚ) : Option WordData :=
  l.foldl (fun cur a => some (record_word_attempt cur a "")) none

/-- WordPracticeTracker.should_suggest_alphabet_practice, per key. -/
def should_suggest_alphabet_practice (cur : Option WordData) : Bool :=
  match cur with
  | none => false
  | some word_data =>
    if PracticeConfig.MAX_ATTEMPTS_BEFORE_SUGGESTION ≤ word_data.attempts then true
    else if PracticeConfig.DECREASING_ACCURACY_THRESHOLD ≤ word_data.decreasing_streak then
      true
    else if PracticeConfig.MINIMUM_ATTEMPTS_FOR_SUGGESTION ≤ word_data.attempts ∧
        word_data.best_accuracy < 40 then
      true
    else false

/-- Statistics dict returned by WordPracticeTracker.get_word_statistics.  For
an unseen key the Python dict has no 'decreasing_streak' entry; that field is
an Option, none in that case. -/
structure WordStatistics where
  total_attempts : Nat
  best_accuracy : ℚ
  last_accuracy : ℚ
  average_accuracy : ℚ
  improvement_trend : String
  decreasing_streak : Option Nat

/-- WordPracticeTracker.get_word_statistics, per key. -/
def get_word_statistics (cur : Option WordData) : WordStatistics :=
  match cur with
  | none =>
    { total_attempts := 0
      best_accuracy := 0
      last_accuracy := 0
      average_accuracy := 0
      improvement_trend := "none"
      decreasing_streak := none }
  | some word_data =>
    let accuracies := word_data.accuracies
    let total_attempts := accuracies.length
    let average_accuracy :=
      if accuracies ≠ [] then listSum accuracies / (accuracies.length : ℚ) else 0
    let improvement_trend :=
      if total_attempts < 2 then "insufficient_data"
      else if 3 ≤ accuracies.length then
        let recent_avg := listSum (accuracies.drop (accuracies.length - 3)) / 3
        let earlier_avg :=
          if 3 < accuracies.length then
            listSum (accuracies.take (accuracies.length - 3)) /
              ((accuracies.length - 3 : Nat) : ℚ)
          else accuracies.getD 0 0
        if earlier_avg + 5 < recent_avg then "improving"
        else if recent_avg < earlier_avg - 5 then "declining"
        else "stable"
      else "stable"
    { total_attempts := total_attempts
      best_accuracy := word_data.best_accuracy
      last_accuracy := word_data.last_accuracy
      average_accuracy := pyRound1 average_accuracy
      improvement_trend := improvement_trend
      decreasing_streak := some word_data.decreasing_streak }

end WordPracticeTracker

/-- Similarity of the word क with itself, as produced inside align_words. -/
def kaSim : ℚ := TextProcessor.calculate_similarity "क" "क"

/-- Correctness flag of the word क against itself, as produced inside
align_words. -/
def kaCor : Bool :=
  decide (AnalysisConfig.WORD_SIMILARITY_THRESHOLD <
    TextProcessor.calculate_similarity "क" "क")

/-- A ten-word reference token list. -/
def tenKa : List String := ["क", "क", "क", "क", "क", "क", "क", "क", "क", "क"]

/-- A seven-word spoken token list. -/
def sevenKa : List String := ["क", "क", "क", "क", "क", "क", "क"]

/-- The alignment of tenKa against sevenKa, with the per-position scores still
unevaluated. -/
def alignedTenRaw : List TextProcessor.WordResult :=
  [{ index := 0, original := "क", user := "क", correct := kaCor, similarity := kaSim, devanagari := "क", slp1 := "" },
   { index := 1, original := "क", user := "क", correct := kaCor, similarity := kaSim, devanagari := "क", slp1 := "" },
   { index := 2, original := "क", user := "क", correct := kaCor, similarity := kaSim, devanagari := "क", slp1 := "" },
   { index := 3, original := "क", user := "क", correct := kaCor, similarity := kaSim, devanagari := "क", slp1 := "" },
   { index := 4, original := "क", user := "क", correct := kaCor, similarity := kaSim, devanagari := "क", slp1 := "" },
   { index := 5, original := "क", user := "क", correct := kaCor, similarity := kaSim, devanagari := "क", slp1 := "" },
   { index := 6, original := "क", user := "क", correct := kaCor, similarity := kaSim, devanagari := "क", slp1 := "" },
   { index := 7, original := "क", user := "", correct := false, similarity := 0, devanagari := "क", slp1 := "" },
   { index := 8, original := "क", user := "", correct := false, similarity := 0, devanagari := "क", slp1 := "" },
   { index := 9, original := "क", user := "", correct := false, similarity := 0, devanagari := "क", slp1 := "" }]

/-- The alignment of tenKa against sevenKa with every score evaluated. -/
def alignedTen : List TextProcessor.WordResult :=
  [{ index := 0, original := "क", user := "क", correct := true, similarity := 1, devanagari := "क", slp1 := "" },
   { index := 1, original := "क", user := "क", correct := true, similarity := 1, devanagari := "क", slp1 := "" },
   { index := 2, original := "क", user := "क", correct := true, similarity := 1, devanagari := "क", slp1 := "" },
   { index := 3, original := "क", user := "क", correct := true, similarity := 1, devanagari := "क", slp1 := "" },
   { index := 4, original := "क", user := "क", correct := true, similarity := 1, devanagari := "क", slp1 := "" },
   { index := 5, original := "क", user := "क", correct := true, similarity := 1, devanagari := "क", slp1 := "" },
   { index := 6, original := "क", user := "क", correct := true, similarity := 1, devanagari := "क", slp1 := "" },
   { index := 7, original := "क", user := "", correct := false, similarity := 0, devanagari := "क", slp1 := "" },
   { index := 8, original := "क", user := "", correct := false, similarity := 0, devanagari := "क", slp1 := "" },
   { index := 9, original := "क", user := "", correct := false, similarity := 0, devanagari := "क", slp1 := "" }]

section MatcherLemmas

lemma commonPrefixLen_nil_left (y : List Char) : commonPrefixLen [] y = 0 := by
  cases y <;> rfl

lemma commonPrefixLen_cons (a b : Char) (as bs : List Char) :
    commonPrefixLen (a :: as) (b :: bs) =
      if a = b then commonPrefixLen as bs + 1 else 0 := rfl

lemma commonPrefixLen_le_left : ∀ (x y : List Char), commonPrefixLen x y ≤ x.length := by
  intro x
  induction x with
  | nil => intro y; rw [commonPrefixLen_nil_left]; exact Nat.zero_le _
  | cons a as ih =>
    intro y
    cases y with
    | nil => exact Nat.zero_le _
    | cons b bs =>
      rw [commonPrefixLen_cons]
      by_cases h : a = b
      · rw [if_pos h, List.length_cons]
        exact Nat.succ_le_succ (ih bs)
      · rw [if_neg h]; exact Nat.zero_le _

lemma commonPrefixLen_le_right : ∀ (x y : List Char), commonPrefixLen x y ≤ y.length := by
  intro x
  induction x with
  | nil => intro y; rw [commonPrefixLen_nil_left]; exact Nat.zero_le _
  | cons a as ih =>
    intro y
    cases y with
    | nil => exact Nat.zero_le _
    | cons b bs =>
      rw [commonPrefixLen_cons]
      by_cases h : a = b
      · rw [if_pos h, List.length_cons]
        exact Nat.succ_le_succ (ih bs)
      · rw [if_neg h]; exact Nat.zero_le _

lemma commonPrefixLen_self : ∀ (l : List Char), commonPrefixLen l l = l.length := by
  intro l
  induction l with
  | nil => rfl
  | cons a as ih => rw [commonPrefixLen_cons, if_pos rfl, ih, List.length_cons]

lemma mem_candList {a b : List Char} {c : Nat × Nat × Nat} :
    c ∈ candList a b ↔ ∃ i, i < a.length ∧ ∃ j, j < b.length ∧
      c = (i, j, commonPrefixLen (a.drop i) (b.drop j)) := by
  simp only [candList, List.mem_flatMap, List.mem_map, List.mem_range]
  constructor
  · rintro ⟨i, hi, j, hj, rfl⟩
    exact ⟨i, hi, j, hj, rfl⟩
  · rintro ⟨i, hi, j, hj, rfl⟩
    exact ⟨i, hi, j, hj, rfl⟩

lemma pickStep_left_le (best c : Nat × Nat × Nat) : best.2.2 ≤ (pickStep best c).2.2 := by
  unfold pickStep; split <;> omega

lemma pickStep_right_le (best c : Nat × Nat × Nat) : c.2.2 ≤ (pickStep best c).2.2 := by
  unfold pickStep; split <;> omega

lemma pickStep_eq_or (best c : Nat × Nat × Nat) :
    pickStep best c = best ∨ pickStep best c = c := by
  unfold pickStep; split
  · exact Or.inr rfl
  · exact Or.inl rfl

lemma le_foldl_pickStep :
    ∀ (cs : List (Nat × Nat × Nat)) (init : Nat × Nat × Nat),
      init.2.2 ≤ (cs.foldl pickStep init).2.2 := by
  intro cs
  induction cs with
  | nil => intro init; exact le_refl _
  | cons c cs ih =>
    intro init
    exact le_trans (pickStep_left_le init c) (ih (pickStep init c))

lemma mem_le_foldl_pickStep :
    ∀ (cs : List (Nat × Nat × Nat)) (init c : Nat × Nat × Nat),
      c ∈ cs → c.2.2 ≤ (cs.foldl pickStep init).2.2 := by
  intro cs
  induction cs with
  | nil => intro init c hc; simp at hc
  | cons d cs ih =>
    intro init c hc
    rcases List.mem_cons.mp hc with rfl | hc
    · exact le_trans (pickStep_right_le init c) (le_foldl_pickStep cs _)
    · exact ih _ c hc

lemma foldl_pickStep_eq_or_mem :
    ∀ (cs : List (Nat × Nat × Nat)) (init : Nat × Nat × Nat),
      cs.foldl pickStep init = init ∨ cs.foldl pickStep init ∈ cs := by
  intro cs
  induction cs with
  | nil => intro init; exact Or.inl rfl
  | cons c cs ih =>
    intro init
    rw [List.foldl_cons]
    rcases ih (pickStep init c) with h | h
    · rw [h]
      rcases pickStep_eq_or init c with h2 | h2
      · exact Or.inl h2
      · exact Or.inr (by rw [h2]; exact List.mem_cons_self _ _)
    · exact Or.inr (List.mem_cons_of_mem _ h)

lemma find_longest_match_self {l : List Char} (h : l ≠ []) :
    find_longest_match l l = (0, 0, l.length) := by
  have hn : 0 < l.length := List.length_pos.mpr h
  have hmem : ((0, 0, l.length) : Nat × Nat × Nat) ∈ candList l l := by
    rw [mem_candList]
    exact ⟨0, hn, 0, hn, by simp [commonPrefixLen_self]⟩
  have hub : l.length ≤ (find_longest_match l l).2.2 := by
    have := mem_le_foldl_pickStep (candList l l) (0, 0, 0) _ hmem
    simpa [find_longest_match] using this
  rcases foldl_pickStep_eq_or_mem (candList l l) (0, 0, 0) with he | hm
  · exfalso
    have hz : (find_longest_match l l).2.2 = 0 := by
      rw [find_longest_match, he]
    omega
  · rw [show (candList l l).foldl pickStep (0, 0, 0) = find_longest_match l l from rfl]
      at hm
    rcases mem_candList.mp hm with ⟨i, hi, j, hj, hc⟩
    have h1 : commonPrefixLen (l.drop i) (l.drop j) ≤ l.length - i := by
      have := commonPrefixLen_le_left (l.drop i) (l.drop j)
      simpa using this
    have h2 : commonPrefixLen (l.drop i) (l.drop j) ≤ l.length - j := by
      have := commonPrefixLen_le_right (l.drop i) (l.drop j)
      simpa using this
    have hval : (find_longest_match l l).2.2 = commonPrefixLen (l.drop i) (l.drop j) := by
      rw [hc]
    have hi0 : i = 0 := by omega
    have hj0 : j = 0 := by omega
    subst hi0; subst hj0
    rw [hc]
    simp [commonPrefixLen_self]

lemma matchTotalAux_nil : ∀ (fuel : Nat), matchTotalAux fuel [] [] = 0 := by
  intro fuel
  cases fuel with
  | zero => rfl
  | succ n =>
    have h : find_longest_match [] [] = (0, 0, 0) := rfl
    simp [matchTotalAux, h]

lemma matchTotal_self {l : List Char} (h : l ≠ []) : matchTotal l l = l.length := by
  obtain ⟨n, hn⟩ : ∃ n, l.length = n + 1 := by
    have := List.length_pos.mpr h
    exact ⟨l.length - 1, by omega⟩
  have hf : find_longest_match l l = (0, 0, n + 1) := by
    rw [find_longest_match_self h, hn]
  rw [matchTotal, hn]
  simp only [matchTotalAux, hf]
  rw [if_pos (Nat.succ_pos n)]
  rw [List.take_zero, Nat.zero_add, show n + 1 = l.length from hn.symm, List.drop_length]
  rw [matchTotalAux_nil]
  omega

lemma ratioOf_self {l : List Char} (h : l ≠ []) : ratioOf l l = 1 := by
  rw [ratioOf, matchTotal_self h]
  have hq : (l.length : ℚ) ≠ 0 := by
    have := List.length_pos.mpr h
    exact_mod_cast Nat.pos_iff_ne_zero.mp this
  field_simp
  ring

lemma toList_ne_nil {s : String} (h : s ≠ "") : s.toList ≠ [] := by
  intro hl
  apply h
  apply String.ext
  have h0 : ("" : String).data = [] := rfl
  rw [h0]
  exact hl

lemma calculate_similarity_self (a : String) (h : a ≠ "") :
    TextProcessor.calculate_similarity a a = 1 := by
  rw [TextProcessor.calculate_similarity, if_neg (by simp [h])]
  apply ratioOf_self
  simp only [ne_eq, List.map_eq_nil_iff]
  exact toList_ne_nil h

lemma calculate_similarity_empty_left (x : String) :
    TextProcessor.calculate_similarity "" x = 0 := by
  rw [TextProcessor.calculate_similarity, if_pos (Or.inl rfl)]

lemma calculate_similarity_empty_right (x : String) :
    TextProcessor.calculate_similarity x "" = 0 := by
  rw [TextProcessor.calculate_similarity, if_pos (Or.inr rfl)]

lemma similarity_namaste :
    TextProcessor.calculate_similarity "namaste" "namasthe" = 14/15 := by
  rw [TextProcessor.calculate_similarity, if_neg (by simp)]
  have hm : matchTotal ("namaste".toList.map Char.toLower)
      ("namasthe".toList.map Char.toLower) = 7 := by decide
  have hl1 : ("namaste".toList.map Char.toLower).length = 7 := by decide
  have hl2 : ("namasthe".toList.map Char.toLower).length = 8 := by decide
  rw [ratioOf, hm, hl1, hl2]
  norm_num

lemma similarity_tenchars :
    TextProcessor.calculate_similarity "aaaaaaabbb" "aaaaaaaccc" = 7/10 := by
  rw [TextProcessor.calculate_similarity, if_neg (by simp)]
  have hm : matchTotal ("aaaaaaabbb".toList.map Char.toLower)
      ("aaaaaaaccc".toList.map Char.toLower) = 7 := by decide
  have hl1 : ("aaaaaaabbb".toList.map Char.toLower).length = 10 := by decide
  have hl2 : ("aaaaaaaccc".toList.map Char.toLower).length = 10 := by decide
  rw [ratioOf, hm, hl1, hl2]
  norm_num

end MatcherLemmas

section AlignLemmas

open TextProcessor

lemma align_words_get_sim (o u : List String) (m : Option (List WordMeta)) (i : Nat)
    (h : i < (align_words o u m).length) :
    ((align_words o u m).get ⟨i, h⟩).similarity =
      if o.getD i "" ≠ "" ∧ u.getD i "" ≠ "" then
        calculate_similarity (o.getD i "") (u.getD i "")
      else 0 := by
  simp only [align_words, List.get_eq_getElem, List.getElem_map, List.getElem_range]
  rw [apply_ite Prod.fst]

lemma align_words_get_correct (o u : List String) (m : Option (List WordMeta)) (i : Nat)
    (h : i < (align_words o u m).length) :
    ((align_words o u m).get ⟨i, h⟩).correct =
      if o.getD i "" ≠ "" ∧ u.getD i "" ≠ "" then
        decide (AnalysisConfig.WORD_SIMILARITY_THRESHOLD <
          calculate_similarity (o.getD i "") (u.getD i ""))
      else false := by
  simp only [align_words, List.get_eq_getElem, List.getElem_map, List.getElem_range]
  rw [apply_ite Prod.snd]

end AlignLemmas

/-- C1: for every pair of token lists and any optional metadata, align_words
returns a list whose length is max(len(reference), len(spoken)), and every
position at which either side's token is empty carries similarity 0.0 and
correct = false. -/
theorem c1_align_words_shape :
    ∀ (o u : List String) (m : Option (List TextProcessor.WordMeta)),
      (TextProcessor.align_words o u m).length = max o.length u.length ∧
      ∀ r ∈ TextProcessor.align_words o u m,
        (r.original = "" ∨ r.user = "") → r.similarity = 0 ∧ r.correct = false := by
  intro o u m
  constructor
  · simp [TextProcessor.align_words]
  · intro r hr hempty
    simp only [TextProcessor.align_words, List.mem_map, List.mem_range] at hr
    obtain ⟨i, hi, rfl⟩ := hr
    dsimp only at hempty ⊢
    have hcond : ¬(o.getD i "" ≠ "" ∧ u.getD i "" ≠ "") := by
      intro hand
      rcases hempty with h | h
      · exact hand.1 h
      · exact hand.2 h
    rw [if_neg hcond]
    exact ⟨rfl, rfl⟩

/-- C1 witness: reference ["a"] against an empty spoken list has one aligned
position, and that position carries similarity 0.0 and correct = false. -/
theorem c1_witness :
    (TextProcessor.align_words ["a"] [] none).length = 1 ∧
    (({ index := 0
        original := "a"
        user := ""
        correct := false
        similarity := 0
        devanagari := "a"
        slp1 := "" } : TextProcessor.WordResult).similarity = 0 ∧
      ({ index := 0
         original := "a"
         user := ""
         correct := false
         similarity := 0
         devanagari := "a"
         slp1 := "" } : TextProcessor.WordResult).correct = false) := by
  refine ⟨?_, ?_⟩
  · have := (c1_align_words_shape ["a"] [] none).1
    simpa using this
  · exact (c1_align_words_shape ["a"] [] none).2 _ (by decide) (Or.inr rfl)

/-- C2: calculate_accuracy rounds correct/total*100 to one decimal where the
total counts only positions with a non-empty reference token, and returns 0.0
without any division when no such position exists, including on []. -/
theorem c2_calculate_accuracy_total (wr : List TextProcessor.WordResult) :
    TextProcessor.calculate_accuracy [] = 0 ∧
    ((wr.filter fun r => r.original ≠ "") = [] →
      TextProcessor.calculate_accuracy wr = 0) ∧
    ((wr.filter fun r => r.original ≠ "") ≠ [] →
      TextProcessor.calculate_accuracy wr =
        pyRound1 (((((wr.filter fun r => r.original ≠ "").countP fun r => r.correct) : ℚ) /
          (((wr.filter fun r => r.original ≠ "").length : ℚ))) * 100)) := by
  refine ⟨rfl, ?_, ?_⟩
  · intro hf
    simp only [TextProcessor.calculate_accuracy]
    by_cases hw : wr = []
    · rw [if_pos hw]
    · rw [if_neg hw, if_pos hf]
  · intro hf
    have hw : wr ≠ [] := by
      intro h
      subst h
      simp at hf
    simp only [TextProcessor.calculate_accuracy]
    rw [if_neg hw, if_neg hf]

/-- C2 witness: a list with only a spoken-side placeholder yields accuracy 0.0,
and a single correct reference word yields accuracy 100.0. -/
theorem c2_witness :
    TextProcessor.calculate_accuracy
      [{ index := 0
         original := ""
         user := "x"
         correct := false
         similarity := 0
         devanagari := ""
         slp1 := "" }] = 0 ∧
    TextProcessor.calculate_accuracy
      [{ index := 0
         original := "a"
         user := "a"
         correct := true
         similarity := 1
         devanagari := "a"
         slp1 := "" }] = 100 := by
  constructor
  · exact (c2_calculate_accuracy_total _).2.1 (by decide)
  · have h := (c2_calculate_accuracy_total
      [{ index := 0
         original := "a"
         user := "a"
         correct := true
         similarity := 1
         devanagari := "a"
         slp1 := "" }]).2.2 (by decide)
    rw [h]
    have hc : ((([{ index := 0
                    original := "a"
                    user := "a"
                    correct := true
                    similarity := 1
                    devanagari := "a"
                    slp1 := "" }] : List TextProcessor.WordResult).filter
        fun r => r.original ≠ "").countP fun r => r.correct) = 1 := by decide
    have hl : (([{ index := 0
                   original := "a"
                   user := "a"
                   correct := true
                   similarity := 1
                   devanagari := "a"
                   slp1 := "" }] : List TextProcessor.WordResult).filter
        fun r => r.original ≠ "").length = 1 := by decide
    rw [hc, hl]
    norm_num [pyRound1]

/-- C4 counterexample: the similarity of "namaste" and "namasthe" is not 15/16
(the matching blocks are "namast" and "e", so M = 7 and T = 15). -/
theorem c4_counterexample :
    TextProcessor.calculate_similarity "namaste" "namasthe" ≠ 15/16 := by
  rw [similarity_namaste]
  norm_num

/-- C4 (amended): for reference "namaste" and spoken "namasthe" the similarity
scorer returns 14/15 (approximately 0.933, not 15/16), which still exceeds the
0.7 threshold, so the aligned position is marked correct. -/
theorem c4_similarity_namaste_amended :
    TextProcessor.calculate_similarity "namaste" "namasthe" = 14/15 ∧
    AnalysisConfig.WORD_SIMILARITY_THRESHOLD < 14/15 ∧
    ((TextProcessor.align_words ["namaste"] ["namasthe"] none).map
      fun r => r.correct) = [true] := by
  refine ⟨similarity_namaste, ?_, ?_⟩
  · norm_num [AnalysisConfig.WORD_SIMILARITY_THRESHOLD]
  · have hc : decide (AnalysisConfig.WORD_SIMILARITY_THRESHOLD <
        TextProcessor.calculate_similarity "namaste" "namasthe") = true := by
      rw [similarity_namaste]
      exact decide_eq_true (by norm_num [AnalysisConfig.WORD_SIMILARITY_THRESHOLD])
    have h0 : TextProcessor.align_words ["namaste"] ["namasthe"] none =
        [{ index := 0, original := "namaste", user := "namasthe",
           correct := decide (AnalysisConfig.WORD_SIMILARITY_THRESHOLD <
             TextProcessor.calculate_similarity "namaste" "namasthe"),
           similarity := TextProcessor.calculate_similarity "namaste" "namasthe",
           devanagari := "namaste", slp1 := "" }] := rfl
    rw [h0, hc]
    rfl

/-- C5: calculate_similarity is 1.0 on any non-empty string compared with
itself, and 0.0 whenever either argument is empty, through the explicit
short-circuit branch. -/
theorem c5_similarity_identity_and_empty :
    (∀ a : String, a ≠ "" → TextProcessor.calculate_similarity a a = 1) ∧
    (∀ x : String, TextProcessor.calculate_similarity "" x = 0 ∧
      TextProcessor.calculate_similarity x "" = 0) :=
  ⟨fun a h => calculate_similarity_self a h,
   fun x => ⟨calculate_similarity_empty_left x, calculate_similarity_empty_right x⟩⟩

/-- C5 witness: similarity("rama", "rama") = 1.0 and both empty-argument
orders give 0.0. -/
theorem c5_witness :
    TextProcessor.calculate_similarity "rama" "rama" = 1 ∧
    TextProcessor.calculate_similarity "" "rama" = 0 ∧
    TextProcessor.calculate_similarity "rama" "" = 0 :=
  ⟨c5_similarity_identity_and_empty.1 "rama" (by decide),
   (c5_similarity_identity_and_empty.2 "rama").1,
   (c5_similarity_identity_and_empty.2 "rama").2⟩

/-- C10: best_accuracy starts from 0 and is only ever max-folded with new
accuracies, so it is non-negative for every recorded key; a first attempt with
a negative accuracy leaves best_accuracy at 0. -/
theorem c10_best_accuracy_nonneg :
    (∀ (l : List (ℚ × String)) (wd : WordPracticeTracker.WordData),
      WordPracticeTracker.applyAttempts l = some wd → 0 ≤ wd.best_accuracy) ∧
    (∀ (acc : ℚ) (t : String), acc < 0 →
      (WordPracticeTracker.record_word_attempt none acc t).best_accuracy = 0) := by
  constructor
  · have key : ∀ (l : List (ℚ × String)) (cur : Option WordPracticeTracker.WordData),
        (∀ wd, cur = some wd → 0 ≤ wd.best_accuracy) →
        ∀ wd, l.foldl
            (fun cur p => some (WordPracticeTracker.record_word_attempt cur p.1 p.2)) cur =
            some wd →
          0 ≤ wd.best_accuracy := by
      intro l
      induction l with
      | nil =>
        intro cur hcur wd hwd
        exact hcur wd hwd
      | cons p l ih =>
        intro cur hcur wd hwd
        refine ih _ ?_ wd hwd
        intro wd' hwd'
        injection hwd' with hwd2
        subst hwd2
        have h0 : 0 ≤ (cur.getD WordPracticeTracker.initWordData).best_accuracy := by
          cases cur with
          | none => norm_num [WordPracticeTracker.initWordData]
          | some w => simpa using hcur w rfl
        simp only [WordPracticeTracker.record_word_attempt]
        exact le_trans h0 (le_max_left _ _)
    intro l wd h
    exact key l none (by intro wd' h'; cases h') wd h
  · intro acc t hacc
    simp only [WordPracticeTracker.record_word_attempt, WordPracticeTracker.initWordData,
      Option.getD]
    exact max_eq_left (le_of_lt hacc)

/-- C10 witness: recording a single attempt with accuracy -5 leaves
best_accuracy at 0, which is indeed non-negative. -/
theorem c10_witness :
    0 ≤ (WordPracticeTracker.record_word_attempt none (-5) "x").best_accuracy ∧
    (WordPracticeTracker.record_word_attempt none (-5) "x").best_accuracy = 0 :=
  ⟨c10_best_accuracy_nonneg.1 [(-5, "x")] _ rfl,
   c10_best_accuracy_nonneg.2 (-5) "x" (by norm_num)⟩

/-- C6: the first recorded attempt for a key (with accuracy in range) sets
decreasing_streak = 0 and best = last = that accuracy; each later attempt
increments the streak exactly when the accuracy strictly drops, resets it to 0
otherwise, sets last_accuracy, and max-folds best_accuracy; recording
[80, 60, 50, 40, 30] ends with decreasing_streak = 4. -/
theorem c6_record_attempt_updates :
    (∀ (acc : ℚ) (t : String), 0 ≤ acc →
      (WordPracticeTracker.record_word_attempt none acc t).decreasing_streak = 0 ∧
      (WordPracticeTracker.record_word_attempt none acc t).best_accuracy = acc ∧
      (WordPracticeTracker.record_word_attempt none acc t).last_accuracy = acc) ∧
    (∀ (wd : WordPracticeTracker.WordData) (acc : ℚ) (t : String),
      (WordPracticeTracker.record_word_attempt (some wd) acc t).decreasing_streak =
        (if acc < wd.last_accuracy then wd.decreasing_streak + 1 else 0) ∧
      (WordPracticeTracker.record_word_attempt (some wd) acc t).last_accuracy = acc ∧
      (WordPracticeTracker.record_word_attempt (some wd) acc t).best_accuracy =
        max wd.best_accuracy acc) ∧
    (WordPracticeTracker.recordAccuracies [80, 60, 50, 40, 30]).map
      (fun wd => wd.decreasing_streak) = some 4 := by
  refine ⟨?_, ?_, ?_⟩
  · intro acc t h
    refine ⟨?_, ?_, rfl⟩
    · simp only [WordPracticeTracker.record_word_attempt, WordPracticeTracker.initWordData,
        Option.getD]
      rw [if_neg (not_lt.mpr h)]
    · simp only [WordPracticeTracker.record_word_attempt, WordPracticeTracker.initWordData,
        Option.getD]
      exact max_eq_right h
  · intro wd acc t
    exact ⟨rfl, rfl, rfl⟩
  · norm_num [WordPracticeTracker.recordAccuracies, WordPracticeTracker.record_word_attempt,
      WordPracticeTracker.initWordData, List.foldl]

/-- C6 witness: a first attempt with accuracy 80 yields streak 0 and
best = last = 80. -/
theorem c6_witness :
    (WordPracticeTracker.record_word_attempt none 80 "x").decreasing_streak = 0 ∧
    (WordPracticeTracker.record_word_attempt none 80 "x").best_accuracy = 80 ∧
    (WordPracticeTracker.record_word_attempt none 80 "x").last_accuracy = 80 :=
  c6_record_attempt_updates.1 80 "x" (by norm_num)

/-- C7: should_suggest_alphabet_practice is false for an unrecorded key and,
for a recorded key, is true exactly when attempts reach 5, or the decreasing
streak reaches 5, or attempts reach 3 with best accuracy still below 40. -/
theorem c7_suggestion_policy :
    WordPracticeTracker.should_suggest_alphabet_practice none = false ∧
    (PracticeConfig.MAX_ATTEMPTS_BEFORE_SUGGESTION = 5 ∧
      PracticeConfig.DECREASING_ACCURACY_THRESHOLD = 5 ∧
      PracticeConfig.MINIMUM_ATTEMPTS_FOR_SUGGESTION = 3) ∧
    ∀ wd : WordPracticeTracker.WordData,
      WordPracticeTracker.should_suggest_alphabet_practice (some wd) = true ↔
        (PracticeConfig.MAX_ATTEMPTS_BEFORE_SUGGESTION ≤ wd.attempts ∨
         PracticeConfig.DECREASING_ACCURACY_THRESHOLD ≤ wd.decreasing_streak ∨
         (PracticeConfig.MINIMUM_ATTEMPTS_FOR_SUGGESTION ≤ wd.attempts ∧
           wd.best_accuracy < 40)) := by
  refine ⟨rfl, ⟨rfl, rfl, rfl⟩, ?_⟩
  intro wd
  simp only [WordPracticeTracker.should_suggest_alphabet_practice]
  split_ifs with h1 h2 h3 <;> simp_all

/-- C7 witness: a key with 5 attempts triggers the suggestion, and an
unrecorded key does not. -/
theorem c7_witness :
    WordPracticeTracker.should_suggest_alphabet_practice
      (some { attempts := 5
              accuracies := [50, 50, 50, 50, 50]
              last_accuracy := 50
              decreasing_streak := 0
              best_accuracy := 50
              transcriptions := [] }) = true ∧
    WordPracticeTracker.should_suggest_alphabet_practice none = false :=
  ⟨(c7_suggestion_policy.2.2 _).mpr (Or.inl (by decide)),
   c7_suggestion_policy.1⟩

/-- C8 counterexample: a key with no recorded attempts (fewer than 2) reports
the trend "none", which is not "insufficient_data" and is outside the four
advertised classifications. -/
theorem c8_counterexample :
    (WordPracticeTracker.get_word_statistics none).total_attempts < 2 ∧
    (WordPracticeTracker.get_word_statistics none).improvement_trend ≠ "insufficient_data" ∧
    (WordPracticeTracker.get_word_statistics none).improvement_trend ∉
      (["improving", "declining", "stable", "insufficient_data"] : List String) := by
  refine ⟨by decide, by decide, by decide⟩

/-- C8 (amended): an unrecorded key reports the trend "none"; for every key
with recorded history the trend is one of the four classifications, it is
"insufficient_data" below 2 attempts, and from 3 attempts on it compares the
mean of the last 3 accuracies with the mean of the earlier ones (or the first
accuracy when there are exactly 3), with a 5-point band for "stable". -/
theorem c8_trend_classification_amended :
    ((WordPracticeTracker.get_word_statistics none).improvement_trend = "none") ∧
    (∀ wd : WordPracticeTracker.WordData,
      (WordPracticeTracker.get_word_statistics (some wd)).improvement_trend ∈
        (["improving", "declining", "stable", "insufficient_data"] : List String)) ∧
    (∀ wd : WordPracticeTracker.WordData, wd.accuracies.length < 2 →
      (WordPracticeTracker.get_word_statistics (some wd)).improvement_trend =
        "insufficient_data") ∧
    (∀ wd : WordPracticeTracker.WordData, 3 ≤ wd.accuracies.length →
      (WordPracticeTracker.get_word_statistics (some wd)).improvement_trend =
        (let recent_avg := listSum (wd.accuracies.drop (wd.accuracies.length - 3)) / 3
         let earlier_avg :=
           if 3 < wd.accuracies.length then
             listSum (wd.accuracies.take (wd.accuracies.length - 3)) /
               ((wd.accuracies.length - 3 : Nat) : ℚ)
           else wd.accuracies.getD 0 0
         if earlier_avg + 5 < recent_avg then "improving"
         else if recent_avg < earlier_avg - 5 then "declining"
         else "stable")) := by
  refine ⟨rfl, ?_, ?_, ?_⟩
  · intro wd
    simp only [WordPracticeTracker.get_word_statistics]
    split_ifs <;> simp
  · intro wd h
    simp only [WordPracticeTracker.get_word_statistics]
    rw [if_pos h]
  · intro wd h
    have h2 : ¬ wd.accuracies.length < 2 := by omega
    simp only [WordPracticeTracker.get_word_statistics]
    rw [if_neg h2, if_pos h]

/-- C8 witness: one attempt reports "insufficient_data", and accuracies
[10, 20, 90] report "improving". -/
theorem c8_witness :
    (WordPracticeTracker.get_word_statistics
      (some { attempts := 1
              accuracies := [50]
              last_accuracy := 50
              decreasing_streak := 0
              best_accuracy := 50
              transcriptions := [] })).improvement_trend = "insufficient_data" ∧
    (WordPracticeTracker.get_word_statistics
      (some { attempts := 3
              accuracies := [10, 20, 90]
              last_accuracy := 90
              decreasing_streak := 0
              best_accuracy := 90
              transcriptions := [] })).improvement_trend = "improving" := by
  constructor
  · exact c8_trend_classification_amended.2.2.1 _ (by decide)
  · have h := c8_trend_classification_amended.2.2.2
      { attempts := 3
        accuracies := [10, 20, 90]
        last_accuracy := 90
        decreasing_streak := 0
        best_accuracy := 90
        transcriptions := [] } (by decide)
    rw [h]
    norm_num [listSum, List.foldl]

/-- C3: the two pass boundaries are asymmetric: an aligned position whose
similarity equals the 0.7 threshold is marked incorrect (strict >), while a
full-shloka analysis whose accuracy equals PASSING_ACCURACY (70.0) is marked
passed (inclusive >=). -/
theorem c3_asymmetric_boundaries :
    (∀ (o u : List String) (m : Option (List TextProcessor.WordMeta)) (i : Nat)
        (h : i < (TextProcessor.align_words o u m).length),
      ((TextProcessor.align_words o u m).get ⟨i, h⟩).similarity =
          AnalysisConfig.WORD_SIMILARITY_THRESHOLD →
        ((TextProcessor.align_words o u m).get ⟨i, h⟩).correct = false) ∧
    (∀ (t : String) (s : PronunciationAnalyzer.Shloka),
      (PronunciationAnalyzer.analyze_full_shloka t s).accuracy =
          AnalysisConfig.PASSING_ACCURACY →
        (PronunciationAnalyzer.analyze_full_shloka t s).passed = true) := by
  constructor
  · intro o u m i h hsim
    rw [align_words_get_correct]
    rw [align_words_get_sim] at hsim
    by_cases hc : o.getD i "" ≠ "" ∧ u.getD i "" ≠ ""
    · rw [if_pos hc] at hsim
      rw [if_pos hc, hsim]
      exact decide_eq_false (lt_irrefl _)
    · rw [if_neg hc] at hsim
      exfalso
      norm_num [AnalysisConfig.WORD_SIMILARITY_THRESHOLD] at hsim
  · intro t s hacc
    simp only [PronunciationAnalyzer.analyze_full_shloka] at hacc ⊢
    rw [hacc]
    exact decide_eq_true (le_refl _)


/-- C3 witness: the pair "aaaaaaabbb" and "aaaaaaaccc" has similarity exactly
7/10 and is marked incorrect, while a 10-word shloka of which exactly 7 words
are spoken correctly scores accuracy exactly 70.0 and is marked passed. -/
theorem c3_witness :
    ((TextProcessor.align_words ["aaaaaaabbb"] ["aaaaaaaccc"] none).get
        ⟨0, by simp [TextProcessor.align_words]⟩).correct = false ∧
    (PronunciationAnalyzer.analyze_full_shloka "क क क क क क क"
        { devanagari := "क क क क क क क क क क", words := [] }).passed = true := by
  constructor
  · refine c3_asymmetric_boundaries.1 ["aaaaaaabbb"] ["aaaaaaaccc"] none 0 _ ?_
    rw [align_words_get_sim]
    rw [if_pos (by decide)]
    have hg1 : (["aaaaaaabbb"] : List String).getD 0 "" = "aaaaaaabbb" := rfl
    have hg2 : (["aaaaaaaccc"] : List String).getD 0 "" = "aaaaaaaccc" := rfl
    rw [hg1, hg2, similarity_tenchars]
    norm_num [AnalysisConfig.WORD_SIMILARITY_THRESHOLD]
  · apply c3_asymmetric_boundaries.2
    have hs1 : TextProcessor.smart_word_split "क क क क क क क क क क" = tenKa := by decide
    have hs2 : TextProcessor.smart_word_split "क क क क क क क" = sevenKa := by decide
    have hsim : TextProcessor.calculate_similarity "क" "क" = 1 :=
      calculate_similarity_self _ (by decide)
    have hcd : decide (AnalysisConfig.WORD_SIMILARITY_THRESHOLD <
        TextProcessor.calculate_similarity "क" "क") = true := by
      rw [hsim]
      exact decide_eq_true (by norm_num [AnalysisConfig.WORD_SIMILARITY_THRESHOLD])
    have h0 : TextProcessor.align_words tenKa sevenKa (some []) = alignedTenRaw := rfl
    have h1 : alignedTenRaw = alignedTen := by
      simp only [alignedTenRaw, alignedTen, kaCor, kaSim]
      rw [hcd, hsim]
    have hne : alignedTen ≠ [] := by decide
    have hfil : alignedTen.filter (fun r => r.original ≠ "") = alignedTen := by decide
    have hcnt : alignedTen.countP (fun r => r.correct) = 7 := by decide
    have hlen : alignedTen.length = 10 := by decide
    simp only [PronunciationAnalyzer.analyze_full_shloka]
    rw [hs1, hs2, h0, h1]
    simp only [TextProcessor.calculate_accuracy]
    rw [if_neg hne, hfil, if_neg hne, hcnt, hlen]
    norm_num [pyRound1, AnalysisConfig.PASSING_ACCURACY]

/-- C9 counterexample: in single-word mode the returned accuracy is the
rounded value round(similarity * 100, 1), not similarity * 100 itself: for
target "namaste" and utterance "namasthe" the code returns 93.3 while
similarity * 100 is 280/3 = 93.33... . -/
theorem c9_counterexample :
    ((PronunciationAnalyzer.analyze_single_word "namasthe"
        [{ devanagari := "namaste", slp1 := "namaste" }] 0).map
      fun r => r.accuracy) = some (933/10) ∧
    (933/10 : ℚ) ≠ TextProcessor.calculate_similarity "namaste" "namasthe" * 100 := by
  constructor
  · have hp : pyStrip "namasthe" = "namasthe" := by decide
    have hg : ([{ devanagari := "namaste", slp1 := "namaste" }] :
        List TextProcessor.WordMeta)[0]? =
        some { devanagari := "namaste", slp1 := "namaste" } := rfl
    simp only [PronunciationAnalyzer.analyze_single_word, hg, Option.map]
    rw [hp, similarity_namaste]
    norm_num [pyRound1]
  · rw [similarity_namaste]
    norm_num

/-- C9 (amended): in single-word mode the returned accuracy equals
round(similarity * 100, 1) computed directly from the scorer on the stripped
utterance, and passed is the per-word strict 0.7 comparison; an utterance
identical to the (whitespace-free, non-empty) target yields accuracy 100.0
and passed = true. -/
theorem c9_single_word_amended :
    (∀ (t : String) (pw : List TextProcessor.WordMeta) (i : Nat)
        (r : PronunciationAnalyzer.SingleWordAnalysis),
      PronunciationAnalyzer.analyze_single_word t pw i = some r →
        r.accuracy = pyRound1 (TextProcessor.calculate_similarity
            (pw.getD i { devanagari := "", slp1 := "" }).devanagari (pyStrip t) * 100) ∧
        r.passed = decide (AnalysisConfig.WORD_SIMILARITY_THRESHOLD <
            TextProcessor.calculate_similarity
              (pw.getD i { devanagari := "", slp1 := "" }).devanagari (pyStrip t))) ∧
    (∀ w : TextProcessor.WordMeta, w.devanagari ≠ "" →
      pyStrip w.devanagari = w.devanagari →
      ((PronunciationAnalyzer.analyze_single_word w.devanagari [w] 0).map
        fun r => (r.accuracy, r.passed)) = some (100, true)) := by
  constructor
  · intro t pw i r h
    cases hcw : pw[i]? with
    | none =>
      rw [PronunciationAnalyzer.analyze_single_word, hcw] at h
      cases h
    | some cw =>
      rw [PronunciationAnalyzer.analyze_single_word, hcw] at h
      injection h with h2
      subst h2
      have hgd : pw.getD i { devanagari := "", slp1 := "" } = cw := by
        rw [List.getD_eq_getElem?_getD, hcw]
        rfl
      rw [hgd]
      exact ⟨rfl, rfl⟩
  · intro w hne hstrip
    have hg : ([w] : List TextProcessor.WordMeta)[0]? = some w := rfl
    simp only [PronunciationAnalyzer.analyze_single_word, hg, Option.map]
    rw [hstrip, calculate_similarity_self w.devanagari hne]
    have hacc : pyRound1 ((1 : ℚ) * 100) = 100 := by norm_num [pyRound1]
    rw [hacc]
    have hps : decide (AnalysisConfig.WORD_SIMILARITY_THRESHOLD < (1 : ℚ)) = true :=
      decide_eq_true (by norm_num [AnalysisConfig.WORD_SIMILARITY_THRESHOLD])
    rw [hps]

/-- C9 witness: target "गुरु" with the identical utterance "गुरु" yields
accuracy 100.0 and passed = true through the direct similarity path. -/
theorem c9_witness :
    ((PronunciationAnalyzer.analyze_single_word "गुरु"
        [{ devanagari := "गुरु", slp1 := "guru" }] 0).map
      fun r => (r.accuracy, r.passed)) = some (100, true) :=
  c9_single_word_amended.2 { devanagari := "गुरु", slp1 := "guru" } (by decide) (by decide)
